import Mathlib

/-!
# Verification of the ihep.app EHR integration core

Shallow embedding of the integration protocol and delivery layer of the
`ihep.app` repository:

* `webhooks/handler.py` — webhook signature verification, event routing,
  retrying execution, Pub/Sub publishing (`WebhookHandler`).
* `sync/bidirectional_sync.py` — inbound sync, sync state, conflict
  resolution (`InboundSync`, `ConflictResolver`, `BidirectionalSync`).
* `adapters/hl7v2_adapter.py` — HL7 v2.x segment parsing, ACK generation,
  FHIR conversion (`HL7v2Adapter`).

Python strings are modelled as `List Char` (`Str`), Python dicts as
insertion-ordered association lists, Python exceptions as `Except`,
ambient effects (wall-clock time, UUID generation, `time.sleep`,
Pub/Sub publishing) as explicit parameters and returned effect traces.
The HMAC-SHA256 library primitive (`hmac.new(...).hexdigest()`) is
abstracted as a function parameter constrained to produce hex digests.
-/

namespace IHEP

/-- Python `str` modelled as a list of characters. -/
abbrev Str := List Char

/-- Character list of a Lean string literal. -/
def str (s : String) : Str := s.data

/-- First-match association-list lookup: the semantics of looking up a key
in a Python dict (keys are unique, insertion order preserved). -/
def dlookup (k : Str) : List (Str × α) → Option α
  | [] => none
  | (k', v) :: rest => if k' = k then some v else dlookup k rest

/-- Python `d.get(k, default)` for a string-valued dict with a supplied
default. -/
def dgetD (d : List (Str × Str)) (k default : Str) : Str :=
  (dlookup k d).getD default

/-- Python `d.get(k, '')` for a string-valued dict. -/
def dget (d : List (Str × Str)) (k : Str) : Str :=
  dgetD d k []

/-- Python dict assignment `d[k] = v`: replace the value in place if the
key exists (keeping its position in insertion order), otherwise append. -/
def dictSet (k : Str) (v : α) : List (Str × α) → List (Str × α)
  | [] => [(k, v)]
  | (k', v') :: rest => if k' = k then (k, v) :: rest else (k', v') :: dictSet k v rest

/-- Python `str.strip()`: remove whitespace from both ends. -/
def stripStr (s : Str) : Str :=
  ((s.dropWhile Char.isWhitespace).reverse.dropWhile Char.isWhitespace).reverse

/-- Python `s.split(sep)` for a single-character separator: always returns
at least one (possibly empty) piece. -/
def splitOnChar (sep : Char) : Str → List Str
  | [] => [[]]
  | c :: cs =>
      match splitOnChar sep cs with
      | [] => if c = sep then [[], []] else [[c]]
      | r :: rs => if c = sep then [] :: r :: rs else (c :: r) :: rs

end IHEP

namespace IHEP.Webhook

/-!
## `webhooks/handler.py`
-/

/-- `WebhookHandler.verify_signature`, from `webhooks/handler.py` lines
140–175.  The HMAC-SHA256 hex digest primitive is abstracted as the
parameter `hmacHex` (secret → body → hex digest); everything else follows
the source line by line: empty secret skips verification and returns
`True`; empty signature returns `False`; an optional `sha256=` / `SHA256=`
prefix is stripped; `hmac.compare_digest` is string equality. -/
def verify_signature (hmacHex : Str → Str → Str) (body signature secret : Str) : Bool :=
  if secret = [] then
    true
  else if signature = [] then
    false
  else
    let clean_signature :=
      if (str "sha256=").isPrefixOf signature then signature.drop 7
      else if (str "SHA256=").isPrefixOf signature then signature.drop 7
      else signature
    let expected := hmacHex secret body
    expected = clean_signature

/-- A well-formed HMAC-SHA256 hex digest: 64 characters drawn from the
lowercase hex alphabet (the output format of Python's
`hmac.new(..., hashlib.sha256).hexdigest()`). -/
def IsHexDigest (d : Str) : Prop :=
  d.length = 64 ∧ ∀ c ∈ d, c ∈ str "0123456789abcdef"

/-- Python `str.lower()` (ASCII case folding suffices for the routing keys
used by the handler). -/
def lowerStr (s : Str) : Str := s.map Char.toLower

/-- Python `event_type.split('.')[0]`: the substring before the first `.`
(the whole string when there is no dot). -/
def baseType (s : Str) : Str := s.takeWhile (· ≠ '.')

/-- The prefix-matching loop of `WebhookHandler._get_route_handler`
(lines 210–213): iterate the routing dict in insertion order and return
the first handler whose lowercased key prefixes the lowercased event
type. -/
def findPrefixMatch (event_lower : Str) : List (Str × α) → Option α
  | [] => none
  | (p, h) :: rest =>
      if (lowerStr p).isPrefixOf event_lower then some h
      else findPrefixMatch event_lower rest

/-- `WebhookHandler._get_route_handler`, lines 203–220: exact dict lookup,
then the first (insertion-order) case-insensitive prefix match, then a
lookup of the base type before the first `.`; `None` otherwise. -/
def get_route_handler (routes : List (Str × α)) (event_type : Str) : Option α :=
  match dlookup event_type routes with
  | some h => some h
  | none =>
      match findPrefixMatch (lowerStr event_type) routes with
      | some h => some h
      | none => dlookup (baseType event_type) routes

/-- Handler selection as the spec words it ("then, among all registered
prefixes that are prefixes of the event type, the longest one"): exact
match, then the longest matching registered prefix, then the base type. -/
def get_route_handler_longest_spec (routes : List (Str × α)) (event_type : Str) : Option α :=
  match dlookup event_type routes with
  | some h => some h
  | none =>
      let cands := routes.filter (fun pr => (lowerStr pr.1).isPrefixOf (lowerStr event_type))
      match cands.foldl
          (fun best pr =>
            match best with
            | none => some pr
            | some b => if pr.1.length > b.1.length then some pr else some b)
          none with
      | some pr => some pr.2
      | none => dlookup (baseType event_type) routes

/-- Handler selection as the code actually behaves, written independently
of `get_route_handler`'s recursion: exact match, else the first entry in
registration order whose lowercased key prefixes the lowercased event
type, else base-type lookup. -/
def get_route_handler_firstmatch_spec (routes : List (Str × α)) (event_type : Str) : Option α :=
  (dlookup event_type routes).orElse fun _ =>
    ((routes.find? (fun pr => (lowerStr pr.1).isPrefixOf (lowerStr event_type))).map Prod.snd).orElse
      fun _ => dlookup (baseType event_type) routes

/-- The mutable state of a `WebhookEvent` (lines 47–92): the fields the
processing pipeline reads or writes.  `event_id` and `received_at` are
generated ambiently (uuid4 / utcnow) and supplied by the caller of the
embedding. -/
structure WebhookEvent where
  event_id : Str
  source : Str
  event_type : Str
  payload : Str
  raw_body : Str
  received_at : Str
  status : Str
  retry_count : Nat
  error : Option Str
  deriving DecidableEq, Repr

/-- `WebhookEvent.__init__`: fresh events start `pending` with zero
retries and no error. -/
def WebhookEvent.mk0 (event_id source event_type payload raw_body received_at : Str) :
    WebhookEvent :=
  { event_id := event_id
    source := source
    event_type := event_type
    payload := payload
    raw_body := raw_body
    received_at := received_at
    status := str "pending"
    retry_count := 0
    error := none }

/-- The retry loop body of `WebhookHandler._execute_with_retry`
(lines 317–343), with `remaining` the number of loop iterations still to
come after the current one (`max_retries - attempt`).  Each failed
attempt sets `event.retry_count = attempt + 1`; a non-final failure
sleeps for the current delay and doubles it by the backoff multiplier
(the returned `List ℚ` is the trace of `time.sleep` arguments); the final
failure re-raises the last exception. -/
def retryGo (handler : WebhookEvent → Except E H) (delay mult : ℚ) (ev : WebhookEvent)
    (attempt : Nat) : (remaining : Nat) → Except E H × WebhookEvent × List ℚ
  | 0 =>
      match handler ev with
      | .ok r => (.ok r, ev, [])
      | .error e => (.error e, { ev with retry_count := attempt + 1 }, [])
  | remaining + 1 =>
      match handler ev with
      | .ok r => (.ok r, ev, [])
      | .error _ =>
          let ev' : WebhookEvent := { ev with retry_count := attempt + 1 }
          let (res, evOut, sleeps) :=
            retryGo handler (delay * mult) mult ev' (attempt + 1) remaining
          (res, evOut, delay :: sleeps)

/-- `WebhookHandler._execute_with_retry` (lines 299–343):
`for attempt in range(max_retries + 1)` is `retryGo` started at attempt 0
with `max_retries` iterations remaining. -/
def execute_with_retry (max_retries : Nat) (delay mult : ℚ)
    (handler : WebhookEvent → Except E H) (ev : WebhookEvent) :
    Except E H × WebhookEvent × List ℚ :=
  retryGo handler delay mult ev 0 max_retries

/-- The Pub/Sub environment of `_publish_to_pubsub` (lines 358–402):
whether a publisher and project are configured, and whether the
`publisher.publish(...)` call succeeds (its failure is caught and only
logged). -/
structure PubSubEnv where
  configured : Bool
  publish_ok : Bool
  deriving DecidableEq, Repr

/-- `WebhookHandler._publish_to_pubsub`: returns the trace of publish
attempts (the event published, paired with whether the publish call
succeeded).  When Pub/Sub is not configured the publish is skipped; a
publish failure is swallowed (`except ... logger.error`), so the function
never raises and returns nothing to its caller. -/
def publish_to_pubsub (env : PubSubEnv) (ev : WebhookEvent) : List (WebhookEvent × Bool) :=
  if env.configured then [(ev, env.publish_ok)] else []

/-- The result dict returned by `process_event` (lines 290–297). -/
structure ProcessResult (H : Type) where
  event_id : Str
  status : Str
  event_type : Str
  handler_result : Option H
  retry_count : Nat
  error : Option Str
  deriving DecidableEq, Repr

/-- Effects performed by one `process_event` call: Pub/Sub publish
attempts and `time.sleep` calls. -/
structure ProcessEffects where
  published : List (WebhookEvent × Bool)
  sleeps : List ℚ
  deriving DecidableEq, Repr

/-- `WebhookHandler.process_event` (lines 226–297).  `renderErr` is the
Python error formatting `f"{type(e).__name__}: {str(e)}"`; `event_id` and
`received_at` are the ambient uuid4 / utcnow values.  A routed handler is
run through `execute_with_retry`; success sets status `completed`,
exhaustion of retries is caught and sets status `failed` and the error
string; an unrouted event becomes `unhandled`.  In every case the event
is then handed to `_publish_to_pubsub` exactly once, and the result dict
is built from the final event state.

`routeRun` is the routing-and-execution block of `process_event`
(lines 264–285): a routed handler is run through `execute_with_retry` on
the event marked `processing` — success yields `completed`, a re-raised
error is caught and yields `failed` with the rendered error string; a
missing handler yields `unhandled`.  Returns the final event, the
handler result, and the sleep trace. -/
def routeRun (max_retries : Nat) (delay mult : ℚ) (renderErr : E → Str)
    (handlerOpt : Option (WebhookEvent → Except E H)) (event : WebhookEvent) :
    WebhookEvent × Option H × List ℚ :=
  match handlerOpt with
  | some handler =>
      match execute_with_retry max_retries delay mult handler
          { event with status := str "processing" } with
      | (.ok r, ev, sleeps) => ({ ev with status := str "completed" }, some r, sleeps)
      | (.error e, ev, sleeps) =>
          ({ ev with status := str "failed", error := some (renderErr e) }, none, sleeps)
  | none => ({ event with status := str "unhandled" }, none, [])

/-- Top level of `WebhookHandler.process_event` (lines 226–297): build the
fresh event, route and run it (`routeRun`), publish the final event to
Pub/Sub exactly once, and assemble the returned result dictionary from
the final event state. -/
def process_event (routes : List (Str × (WebhookEvent → Except E H)))
    (max_retries : Nat) (delay mult : ℚ) (renderErr : E → Str) (env : PubSubEnv)
    (event_id received_at : Str) (source event_type payload raw_body : Str) :
    ProcessResult H × ProcessEffects :=
  let event := WebhookEvent.mk0 event_id source event_type payload raw_body received_at
  let (event, handler_result, sleeps) :=
    routeRun max_retries delay mult renderErr (get_route_handler routes event_type) event
  let published := publish_to_pubsub env event
  ({ event_id := event.event_id
     status := event.status
     event_type := event_type
     handler_result := handler_result
     retry_count := event.retry_count
     error := event.error },
   { published := published, sleeps := sleeps })

end IHEP.Webhook

namespace IHEP.Sync

open IHEP

/-!
## `sync/bidirectional_sync.py`
-/

/-- The `SyncState` dataclass (lines 21–36): per-partner sync progress and
health counters. -/
structure SyncState where
  partner_id : Str
  last_inbound_sync : Option Str := none
  last_outbound_sync : Option Str := none
  last_inbound_cursor : Option Str := none
  last_outbound_cursor : Option Str := none
  inbound_total_synced : Nat := 0
  outbound_total_synced : Nat := 0
  last_error : Option Str := none
  consecutive_failures : Nat := 0
  status : Str := str "idle"
  deriving DecidableEq, Repr

/-- The `SyncResult` dataclass (lines 39–55). -/
structure SyncResult where
  success : Bool
  partner_id : Str
  direction : Str
  resources_processed : Nat := 0
  resources_created : Nat := 0
  resources_updated : Nat := 0
  resources_failed : Nat := 0
  conflicts : Nat := 0
  error : Option Str := none
  duration_seconds : ℚ := 0
  cursor : Option Str := none
  deriving DecidableEq, Repr

/-- A partner's configuration as read by `InboundSync.sync_partner`:
the `ehr_vendor` key and the four `data_scope` flags with their
`.get(..., default)` defaults. -/
structure PartnerConfig where
  ehr_vendor : Str
  scope_patients : Bool := true
  scope_observations : Bool := true
  scope_appointments : Bool := true
  scope_care_plans : Bool := false
  deriving DecidableEq, Repr

/-- An EHR adapter as used by the inbound sync: whether
`adapter.authenticate()` succeeds, and the outcome of the
`search_patients` / `search_observations` / `search_appointments` call
for a resource type and cursor — the number of resources returned, or an
exception message.  Batch size and the `hasattr` fallback of
`_sync_resource_type` are absorbed into this function. -/
structure Adapter where
  authenticate_ok : Bool
  search : Str → Option Str → Except Str Nat

/-- The environment of one `InboundSync.sync_partner` call:
`config.get_partner`, `adapter_registry.get_adapter`, the
`datetime.utcnow().isoformat()` value taken at state-update time, and the
measured duration. -/
structure SyncEnv where
  get_partner : Str → Option PartnerConfig
  get_adapter : Str → Option Adapter
  now_iso : Str
  elapsed : ℚ

/-- `InboundSync._sync_resource_type` (lines 184–217): dispatch on the
resource type to the adapter's search call; unknown resource types
(e.g. `CarePlan`) fall through with count 0. -/
def sync_resource_type (adapter : Adapter) (resource_type : Str) (since : Option Str) :
    Except Str Nat :=
  if resource_type = str "Patient" ∨ resource_type = str "Observation" ∨
      resource_type = str "Appointment" then
    adapter.search resource_type since
  else
    .ok 0

/-- The per-resource-type loop of `sync_partner` (lines 143–155):
accumulate `(resources_processed, resources_failed)`; a per-type
exception is logged and counted as one failure without aborting the
remaining types. -/
def syncLoop (adapter : Adapter) (since : Option Str) (rts : List Str) : Nat × Nat :=
  rts.foldl
    (fun acc rt =>
      match sync_resource_type adapter rt since with
      | .ok c => (acc.1 + c, acc.2)
      | .error _ => (acc.1, acc.2 + 1))
    (0, 0)

/-- The pre-loop checks of `sync_partner` (lines 107–122): partner lookup,
adapter lookup, authentication.  Returns the adapter and partner config,
or the message of the exception raised. -/
def preChecks (env : SyncEnv) (partner_id : Str) : Except Str (Adapter × PartnerConfig) :=
  match env.get_partner partner_id with
  | none => .error (str "Partner not found: " ++ partner_id)
  | some pc =>
      match env.get_adapter pc.ehr_vendor with
      | none => .error (str "No adapter for vendor: " ++ pc.ehr_vendor)
      | some adapter =>
          if adapter.authenticate_ok then .ok (adapter, pc)
          else .error (str "Authentication failed for partner " ++ partner_id)

/-- Default resource-type list when the caller passes none
(lines 125–135), driven by the partner's `data_scope` flags. -/
def defaultResourceTypes (pc : PartnerConfig) : List Str :=
  (if pc.scope_patients then [str "Patient"] else []) ++
  (if pc.scope_observations then [str "Observation"] else []) ++
  (if pc.scope_appointments then [str "Appointment"] else []) ++
  (if pc.scope_care_plans then [str "CarePlan"] else [])

/-- `InboundSync.sync_partner` (lines 79–182), as a state transformer on
the partner's `SyncState`.  The state is first marked `syncing`
(line 98); a pre-loop exception takes the `except` branch (lines
172–180): `last_error` set, `consecutive_failures` incremented, status
`error`, the result carrying the error.  Otherwise the resource-type loop
runs and then — unconditionally — `last_inbound_sync` is set to now,
`inbound_total_synced` is increased, `consecutive_failures` reset, status
returned to `idle`, and the result marked successful (lines 156–165). -/
def inbound_sync_partner (env : SyncEnv) (state0 : SyncState)
    (resource_types : Option (List Str)) (force_full : Bool) : SyncResult × SyncState :=
  let state := { state0 with status := str "syncing" }
  let result0 : SyncResult :=
    { success := false, partner_id := state.partner_id, direction := str "inbound" }
  match preChecks env state.partner_id with
  | .error e =>
      ({ result0 with error := some e, duration_seconds := env.elapsed },
       { state with
           last_error := some e
           consecutive_failures := state.consecutive_failures + 1
           status := str "error" })
  | .ok (adapter, pc) =>
      let rts := resource_types.getD (defaultResourceTypes pc)
      let since : Option Str :=
        if !force_full ∧ state.last_inbound_sync.getD [] ≠ [] then state.last_inbound_sync
        else none
      let (processed, failed) := syncLoop adapter since rts
      ({ result0 with
           success := true
           resources_processed := processed
           resources_created := processed
           resources_failed := failed
           duration_seconds := env.elapsed },
       { state with
           last_inbound_sync := some env.now_iso
           inbound_total_synced := state.inbound_total_synced + processed
           consecutive_failures := 0
           status := str "idle" })

/-- `BidirectionalSync._get_pending_outbound` (lines 504–511): the
placeholder implementation always returns an empty list. -/
def get_pending_outbound (_partner_id : Str) : List Str := []

/-- `BidirectionalSync.sync_partner` (lines 414–457): runs the inbound
sync when direction is `inbound`/`bidirectional`, and — since
`_get_pending_outbound` returns no pending resources — answers the
outbound direction with an empty successful result.  Returns the
(`inbound`, `outbound`) result entries and the inbound state after the
call. -/
def bidirectional_sync_partner (env : SyncEnv) (state0 : SyncState) (direction : Str)
    (resource_types : Option (List Str)) (force_full : Bool) :
    (Option SyncResult × Option SyncResult) × SyncState :=
  let (inboundRes, state1) :=
    if direction = str "inbound" ∨ direction = str "bidirectional" then
      let (r, s) := inbound_sync_partner env state0 resource_types force_full
      (some r, s)
    else (none, state0)
  let outboundRes :=
    if direction = str "outbound" ∨ direction = str "bidirectional" then
      some { success := true, partner_id := state0.partner_id,
             direction := str "outbound", resources_processed := 0 : SyncResult }
    else none
  ((inboundRes, outboundRes), state1)

/-!
### `ConflictResolver`
-/

/-- A JSON-ish value for the resource dictionaries handled by
`ConflictResolver.resolve`. -/
inductive RVal where
  | s (v : Str)
  | b (v : Bool)
  | d (fields : List (Str × RVal))

/-- A resource dictionary. -/
abbrev Resource := List (Str × RVal)

/-- `resource.get('meta', {}).get('last_updated', '1970-01-01')`
(lines 368–373). -/
def metaLastUpdated (r : Resource) : Str :=
  match dlookup (str "meta") r with
  | some (RVal.d m) =>
      match dlookup (str "last_updated") m with
      | some (RVal.s v) => v
      | _ => str "1970-01-01"
  | _ => str "1970-01-01"

/-- Python string `<`: lexicographic comparison by code point. -/
def strLt : Str → Str → Bool
  | [], [] => false
  | [], _ :: _ => true
  | _ :: _, [] => false
  | a :: as, b :: bs => if a < b then true else if b < a then false else strLt as bs

/-- `ConflictResolver.__init__` (lines 347–348): an empty strategy falls
back to `DEFAULT_STRATEGY = "newest_wins"`. -/
def resolverInit (strategy : Str) : Str :=
  if strategy = [] then str "newest_wins" else strategy

/-- The `_conflict_resolution` metadata attached to the winner
(lines 391–395). -/
def conflictMeta (strategy source now : Str) : RVal :=
  .d [(str "strategy", .s strategy), (str "winner", .s source), (str "resolved_at", .s now)]

/-- `ConflictResolver.resolve` (lines 350–397), with the heap made
explicit: returns `(return value, ihep_resource after, ehr_resource
after)`.  The winning input dict is mutated in place by the
`winner["_conflict_resolution"] = ...` assignment, so the returned value
aliases the mutated input; the `manual` fallback builds a fresh flagged
dict and leaves both inputs unchanged.  `now` is the ambient
`datetime.utcnow().isoformat()` value. -/
def resolve (strategy now : Str) (ihep_resource ehr_resource : Resource)
    (resource_type : Str) : Resource × Resource × Resource :=
  if strategy = str "ehr_wins" then
    let w := dictSet (str "_conflict_resolution") (conflictMeta strategy (str "ehr") now) ehr_resource
    (w, ihep_resource, w)
  else if strategy = str "ihep_wins" then
    let w := dictSet (str "_conflict_resolution") (conflictMeta strategy (str "ihep") now) ihep_resource
    (w, w, ehr_resource)
  else if strategy = str "newest_wins" then
    let ihep_updated := metaLastUpdated ihep_resource
    let ehr_updated := metaLastUpdated ehr_resource
    if strLt ihep_updated ehr_updated = false then
      let w := dictSet (str "_conflict_resolution") (conflictMeta strategy (str "ihep") now) ihep_resource
      (w, w, ehr_resource)
    else
      let w := dictSet (str "_conflict_resolution") (conflictMeta strategy (str "ehr") now) ehr_resource
      (w, ihep_resource, w)
  else
    ([(str "conflict", .b true),
      (str "resolution", .s (str "manual")),
      (str "ihep_version", .d ihep_resource),
      (str "ehr_version", .d ehr_resource),
      (str "resource_type", .s resource_type),
      (str "detected_at", .s now)],
     ihep_resource, ehr_resource)

/-- The `newest_wins` selection as the spec words it: "returns the operand
whose last-modified timestamp is later, with ties resolved in favor of
the local (platform-side) operand" — paired with the winning side's
name. -/
def newest_wins_spec (ihep_resource ehr_resource : Resource) : Resource × Str :=
  if strLt (metaLastUpdated ihep_resource) (metaLastUpdated ehr_resource) then
    (ehr_resource, str "ehr")
  else
    (ihep_resource, str "ihep")

end IHEP.Sync

namespace IHEP.HL7

open IHEP

/-!
## `adapters/hl7v2_adapter.py`
-/

/-- The value stored under one key of `parsed['segments']`: MSH/PID/PV1/SCH
store a single field map, OBR/OBX store a list of field maps (one per
repeated segment). -/
inductive SegVal where
  | one (fields : List (Str × Str))
  | many (items : List (List (Str × Str)))
  deriving DecidableEq, Repr

/-- A preserved custom Z-segment (lines 221–226): the raw segment string
and `fields[1:]`. -/
structure ZSeg where
  raw : Str
  fields : List Str
  deriving DecidableEq, Repr

/-- The dictionary returned by `parse_hl7_message` (lines 184–190). -/
structure ParsedMessage where
  segments : List (Str × SegVal)
  message_type : Str
  message_control_id : Str
  z_segments : List (Str × ZSeg)
  raw : Str
  deriving DecidableEq, Repr

/-- `HL7v2Adapter._safe_field` (lines 230–235): `fields[index]` when in
range, the empty-string default otherwise. -/
def safeField (fields : List Str) (index : Nat) : Str :=
  fields.getD index []

/-- `HL7v2Adapter._parse_msh` (lines 237–253). -/
def parse_msh (fields : List Str) : List (Str × Str) :=
  [(str "field_separator", str "|"),
   (str "encoding_characters", safeField fields 1),
   (str "sending_application", safeField fields 2),
   (str "sending_facility", safeField fields 3),
   (str "receiving_application", safeField fields 4),
   (str "receiving_facility", safeField fields 5),
   (str "datetime", safeField fields 6),
   (str "security", safeField fields 7),
   (str "message_type", safeField fields 8),
   (str "message_control_id", safeField fields 9),
   (str "processing_id", safeField fields 10),
   (str "version_id", safeField fields 11)]

/-- `HL7v2Adapter._parse_pid` (lines 255–279). -/
def parse_pid (fields : List Str) : List (Str × Str) :=
  let name_field := safeField fields 5
  let name_parts := if name_field ≠ [] then splitOnChar '^' name_field else [[], []]
  [(str "set_id", safeField fields 1),
   (str "patient_id", safeField fields 2),
   (str "patient_id_list", safeField fields 3),
   (str "alternate_patient_id", safeField fields 4),
   (str "patient_name", name_field),
   (str "family_name", name_parts.getD 0 []),
   (str "given_name", name_parts.getD 1 []),
   (str "middle_name", name_parts.getD 2 []),
   (str "date_of_birth", safeField fields 7),
   (str "sex", safeField fields 8),
   (str "race", safeField fields 10),
   (str "address", safeField fields 11),
   (str "phone_home", safeField fields 13),
   (str "phone_business", safeField fields 14),
   (str "language", safeField fields 15),
   (str "marital_status", safeField fields 16),
   (str "ssn", safeField fields 19)]

/-- `HL7v2Adapter._parse_pv1` (lines 281–293). -/
def parse_pv1 (fields : List Str) : List (Str × Str) :=
  [(str "set_id", safeField fields 1),
   (str "patient_class", safeField fields 2),
   (str "assigned_location", safeField fields 3),
   (str "admission_type", safeField fields 4),
   (str "attending_doctor", safeField fields 7),
   (str "referring_doctor", safeField fields 8),
   (str "hospital_service", safeField fields 10),
   (str "admit_datetime", safeField fields 44),
   (str "discharge_datetime", safeField fields 45)]

/-- `HL7v2Adapter._parse_obr` (lines 295–306). -/
def parse_obr (fields : List Str) : List (Str × Str) :=
  [(str "set_id", safeField fields 1),
   (str "placer_order_number", safeField fields 2),
   (str "filler_order_number", safeField fields 3),
   (str "universal_service_id", safeField fields 4),
   (str "observation_datetime", safeField fields 7),
   (str "observation_end_datetime", safeField fields 8),
   (str "ordering_provider", safeField fields 16),
   (str "result_status", safeField fields 25)]

/-- `HL7v2Adapter._parse_obx` (lines 308–321). -/
def parse_obx (fields : List Str) : List (Str × Str) :=
  [(str "set_id", safeField fields 1),
   (str "value_type", safeField fields 2),
   (str "observation_identifier", safeField fields 3),
   (str "observation_sub_id", safeField fields 4),
   (str "observation_value", safeField fields 5),
   (str "units", safeField fields 6),
   (str "references_range", safeField fields 7),
   (str "abnormal_flags", safeField fields 8),
   (str "observation_result_status", safeField fields 11),
   (str "effective_datetime", safeField fields 14)]

/-- `HL7v2Adapter._parse_sch` (lines 323–335). -/
def parse_sch (fields : List Str) : List (Str × Str) :=
  [(str "placer_appointment_id", safeField fields 1),
   (str "filler_appointment_id", safeField fields 2),
   (str "event_reason", safeField fields 6),
   (str "appointment_reason", safeField fields 7),
   (str "appointment_type", safeField fields 8),
   (str "appointment_duration", safeField fields 9),
   (str "appointment_timing_quantity", safeField fields 11),
   (str "placer_contact_person", safeField fields 12),
   (str "filler_contact_person", safeField fields 16)]

/-- `parsed['segments'].setdefault(tag, []); parsed['segments'][tag].append(item)`
(lines 210–216): append one repeated-segment field map under its tag. -/
def segAppend (k : Str) (item : List (Str × Str)) :
    List (Str × SegVal) → List (Str × SegVal)
  | [] => [(k, SegVal.many [item])]
  | (k', v) :: rest =>
      if k' = k then
        (k,
          match v with
          | SegVal.many l => SegVal.many (l ++ [item])
          | SegVal.one _ => SegVal.many [item]) :: rest
      else (k', v) :: segAppend k item rest

/-- The body of the `for segment_str in segments:` loop of
`parse_hl7_message` (lines 192–226): skip blank segments, split on `|`,
dispatch on the segment tag.  MSH additionally refreshes the top-level
`message_type` and `message_control_id`; OBR/OBX accumulate; a tag
starting with `Z` is preserved verbatim under `z_segments`; any other tag
is ignored — in particular there is no branch for `MSA`. -/
def parseSegment (pm : ParsedMessage) (segment_str : Str) : ParsedMessage :=
  if stripStr segment_str = [] then pm
  else
    let fields := splitOnChar '|' segment_str
    let segment_type := stripStr (fields.getD 0 [])
    if segment_type = str "MSH" then
      let msh := parse_msh fields
      { pm with
          segments := dictSet (str "MSH") (SegVal.one msh) pm.segments
          message_type := dget msh (str "message_type")
          message_control_id := dget msh (str "message_control_id") }
    else if segment_type = str "PID" then
      { pm with segments := dictSet (str "PID") (SegVal.one (parse_pid fields)) pm.segments }
    else if segment_type = str "PV1" then
      { pm with segments := dictSet (str "PV1") (SegVal.one (parse_pv1 fields)) pm.segments }
    else if segment_type = str "OBR" then
      { pm with segments := segAppend (str "OBR") (parse_obr fields) pm.segments }
    else if segment_type = str "OBX" then
      { pm with segments := segAppend (str "OBX") (parse_obx fields) pm.segments }
    else if segment_type = str "SCH" then
      { pm with segments := dictSet (str "SCH") (SegVal.one (parse_sch fields)) pm.segments }
    else if (str "Z").isPrefixOf segment_type then
      { pm with
          z_segments :=
            dictSet segment_type { raw := segment_str, fields := fields.tail } pm.z_segments }
    else pm

/-- `HL7v2Adapter.parse_hl7_message` (lines 167–228).  The message is
split on carriage returns after stripping; the `if not segments:`
newline fallback is kept although `split` never returns an empty list. -/
def parse_hl7_message (raw_message : Str) : ParsedMessage :=
  let segments := splitOnChar '\r' (stripStr raw_message)
  let segments := if segments = [] then splitOnChar '\n' (stripStr raw_message) else segments
  segments.foldl parseSegment
    { segments := [], message_type := [], message_control_id := [], z_segments := [],
      raw := raw_message }

/-- The adapter identity configuration read by `generate_ack`
(`__init__` lines 49–58 defaults). -/
structure AdapterCfg where
  sending_application : Str := str "IHEP_EHR_INTEGRATION"
  sending_facility : Str := str "IHEP"
  hl7_version : Str := str "2.5.1"
  deriving DecidableEq, Repr

/-- `parsed_message.get('segments', {}).get('MSH', {})` (line 355). -/
def mshOf (pm : ParsedMessage) : List (Str × Str) :=
  match dlookup (str "MSH") pm.segments with
  | some (SegVal.one f) => f
  | _ => []

/-- `HL7v2Adapter.generate_ack` (lines 341–372).  `now` is the ambient
`utcnow` timestamp and `control_id` the fresh uuid4-derived control id.
Builds an MSH segment echoing the original sender as receiver, an MSA
segment carrying the ack code and the original message control id, and —
for non-AA codes with an error text — an ERR segment; joins on the
carriage-return segment terminator. -/
def generate_ack (cfg : AdapterCfg) (now control_id : Str) (parsed_message : ParsedMessage)
    (ack_code error_message : Str) : Str :=
  let msh := mshOf parsed_message
  let seg1 :=
    str "MSH|^~\\&|" ++ cfg.sending_application ++ str "|" ++ cfg.sending_facility ++
    str "|" ++ dget msh (str "sending_application") ++ str "|" ++
    dget msh (str "sending_facility") ++ str "|" ++ now ++ str "||ACK|" ++ control_id ++
    str "|P|" ++ cfg.hl7_version
  let seg2 :=
    str "MSA|" ++ ack_code ++ str "|" ++ dget msh (str "message_control_id") ++ str "|" ++
    error_message
  let ack_segments :=
    if ack_code ≠ str "AA" ∧ error_message ≠ [] then
      [seg1, seg2, str "ERR|||" ++ ack_code ++ str "|E|" ++ error_message]
    else [seg1, seg2]
  List.intercalate ['\r'] ack_segments

/-!
### FHIR conversion (`hl7_to_fhir_observations`)
-/

/-- Ambient collaborators of the FHIR conversion: the uuid4 stream (one
fresh id per OBX segment), whether Python `float(raw)` succeeds for a
string, and whether `datetime.strptime(s, fmt)` succeeds. -/
structure ConvEnv where
  fresh : Nat → Str
  floatOk : Str → Bool
  strptimeOk : Str → Str → Bool

/-- `HL7v2Adapter._parse_hl7_datetime` (lines 573–596): accept 14-, 12-
and 8-digit compact timestamps, reformat to ISO-8601; strptime failures
and short strings return the stripped input unchanged.  For a string
accepted by `strptime`, `strftime` reproduces its digits, so the
reformatting is textual. -/
def parse_hl7_datetime (env : ConvEnv) (hl7_dt : Str) : Str :=
  if hl7_dt = [] then []
  else
    let t := stripStr hl7_dt
    if t.length ≥ 14 then
      if env.strptimeOk (t.take 14) (str "%Y%m%d%H%M%S") then
        t.take 4 ++ str "-" ++ (t.drop 4).take 2 ++ str "-" ++ (t.drop 6).take 2 ++
        str "T" ++ (t.drop 8).take 2 ++ str ":" ++ (t.drop 10).take 2 ++ str ":" ++
        (t.drop 12).take 2 ++ str "Z"
      else t
    else if t.length ≥ 12 then
      if env.strptimeOk (t.take 12) (str "%Y%m%d%H%M") then
        t.take 4 ++ str "-" ++ (t.drop 4).take 2 ++ str "-" ++ (t.drop 6).take 2 ++
        str "T" ++ (t.drop 8).take 2 ++ str ":" ++ (t.drop 10).take 2 ++ str ":00Z"
      else t
    else if t.length ≥ 8 then
      if env.strptimeOk (t.take 8) (str "%Y%m%d") then
        t.take 4 ++ str "-" ++ (t.drop 4).take 2 ++ str "-" ++ (t.drop 6).take 2
      else t
    else t

/-- The value set on the Observation by the `value_type` dispatch
(lines 489–509): a numeric quantity (raw digits kept as parsed by
`float`), a plain string, or a coded entry. -/
inductive ObsValue where
  | quantity (value : Str) (unit : Str)
  | vstring (v : Str)
  | codeable (code display : Str)
  deriving DecidableEq, Repr

/-- One element of the `interpretation[0].coding` list set for a
non-empty abnormal flag (lines 522–528). -/
structure Interp where
  system : Str
  code : Str
  display : Str
  deriving DecidableEq, Repr

/-- The FHIR R4 Observation dictionary built by
`hl7_to_fhir_observations`, with the keys the code sets. -/
structure Observation where
  resourceType : Str
  id : Str
  status : Str
  subject_ref : Str
  code_system : Str
  code_code : Str
  code_display : Str
  code_text : Str
  effectiveDateTime : Str
  value : ObsValue
  referenceRange : Option Str
  interpretation : Option Interp
  deriving DecidableEq, Repr

/-- The abnormal-flag lookup `flag_map.get(flag, flag)` (lines 517–526):
six fixed keys; an unrecognized flag falls back to the raw flag itself. -/
def flag_map_get (flag : Str) : Str :=
  if flag = str "H" then str "high"
  else if flag = str "L" then str "low"
  else if flag = str "A" then str "abnormal"
  else if flag = str "HH" then str "critically-high"
  else if flag = str "LL" then str "critically-low"
  else if flag = str "N" then str "normal"
  else flag

/-- `pid.get('patient_id_list', pid.get('patient_id', ''))` (line 452):
the two-level `dict.get` default chain. -/
def pidPatientId (pid : List (Str × Str)) : Str :=
  match dlookup (str "patient_id_list") pid with
  | some v => v
  | none => dget pid (str "patient_id")

/-- `parsed_message.get('segments', {}).get('PID', {})`. -/
def pidOf (pm : ParsedMessage) : List (Str × Str) :=
  match dlookup (str "PID") pm.segments with
  | some (SegVal.one f) => f
  | _ => []

/-- `parsed_message.get('segments', {}).get('OBX', [])`. -/
def obxListOf (pm : ParsedMessage) : List (List (Str × Str)) :=
  match dlookup (str "OBX") pm.segments with
  | some (SegVal.many l) => l
  | _ => []

/-- The loop body of `hl7_to_fhir_observations` (lines 458–530) for one
OBX field map: observation identifier split, value-type dispatch,
reference range, abnormal-flag interpretation. -/
def convert_obx (env : ConvEnv) (uuid patient_id : Str) (obx : List (Str × Str)) :
    Observation :=
  let obs_id_raw := dget obx (str "observation_identifier")
  let obs_parts := if obs_id_raw ≠ [] then splitOnChar '^' obs_id_raw else [[], []]
  let code := obs_parts.getD 0 []
  let display := obs_parts.getD 1 []
  let system := if obs_parts.length > 2 then obs_parts.getD 2 [] else str "http://loinc.org"
  let value_type := dgetD obx (str "value_type") (str "ST")
  let value_raw := dget obx (str "observation_value")
  let value :=
    if value_type = str "NM" then
      if env.floatOk value_raw then ObsValue.quantity value_raw (dget obx (str "units"))
      else ObsValue.vstring value_raw
    else if value_type = str "ST" then ObsValue.vstring value_raw
    else if value_type = str "CE" then
      let val_parts := splitOnChar '^' value_raw
      ObsValue.codeable (val_parts.getD 0 []) (val_parts.getD 1 [])
    else ObsValue.vstring value_raw
  let flags := dget obx (str "abnormal_flags")
  let rr := dget obx (str "references_range")
  { resourceType := str "Observation"
    id := uuid
    status := str "final"
    subject_ref := str "Patient/" ++ patient_id
    code_system := if system.contains '/' then system else str "http://loinc.org"
    code_code := code
    code_display := display
    code_text := if display ≠ [] then display else code
    effectiveDateTime := parse_hl7_datetime env (dget obx (str "effective_datetime"))
    value := value
    referenceRange := if rr ≠ [] then some rr else none
    interpretation :=
      if flags ≠ [] then
        some { system := str "http://terminology.hl7.org/CodeSystem/v3-ObservationInterpretation",
               code := flags,
               display := flag_map_get flags }
      else none }

/-- The `for obx in obx_list:` loop with its per-iteration uuid4 draw. -/
def convertObxList (env : ConvEnv) (patient_id : Str) :
    Nat → List (List (Str × Str)) → List Observation
  | _, [] => []
  | i, obx :: rest =>
      convert_obx env (env.fresh i) patient_id obx :: convertObxList env patient_id (i + 1) rest

/-- `HL7v2Adapter.hl7_to_fhir_observations` (lines 439–532). -/
def hl7_to_fhir_observations (env : ConvEnv) (pm : ParsedMessage) : List Observation :=
  convertObxList env (pidPatientId (pidOf pm)) 0 (obxListOf pm)

end IHEP.HL7

namespace IHEP

/-!
## Concrete instances used by counterexamples and witnesses
-/

/-- Observer: does a resource carry `_conflict_resolution` metadata? -/
def hasConflictMeta (r : Sync.Resource) : Bool :=
  (dlookup (str "_conflict_resolution") r).isSome

/-- Observer: the `resolved_at` timestamp inside a resource's
`_conflict_resolution` metadata, if any. -/
def resolvedAtOf (r : Sync.Resource) : Option Str :=
  match dlookup (str "_conflict_resolution") r with
  | some (Sync.RVal.d m) =>
      match dlookup (str "resolved_at") m with
      | some (Sync.RVal.s v) => some v
      | _ => none
  | _ => none

/-- A local resource whose `meta.last_updated` is the later one. -/
def resLocal : Sync.Resource :=
  [(str "id", .s (str "r1")), (str "meta", .d [(str "last_updated", .s (str "2025-05-02"))])]

/-- A remote resource with the earlier `meta.last_updated`. -/
def resRemote : Sync.Resource :=
  [(str "id", .s (str "r1")), (str "meta", .d [(str "last_updated", .s (str "2025-05-01"))])]

/-- A sync environment with one partner `P` on vendor `epic` whose adapter
authenticates and returns two resources for every search. -/
def syncEnvEx : Sync.SyncEnv where
  get_partner := fun pid => if pid = str "P" then some { ehr_vendor := str "epic" } else none
  get_adapter := fun v =>
    if v = str "epic" then some { authenticate_ok := true, search := fun _ _ => .ok 2 }
    else none
  now_iso := str "2025-06-01T00:00:00"
  elapsed := 0

/-- A sync state for partner `P` that is already mid-sync
(`status = "syncing"`), as left by a first in-flight `sync_partner`
call. -/
def stSyncing : Sync.SyncState :=
  { partner_id := str "P", status := str "syncing" }

/-- A fresh idle sync state for partner `P`. -/
def stIdle : Sync.SyncState := { partner_id := str "P" }

/-- A well-formed inbound ADT message with control id `CTRL1`. -/
def adtMsg : Str :=
  str "MSH|^~\\&|SND|SFAC|RCV|RFAC|20250101||ADT^A01|CTRL1|P|2.5.1\rPID|1||12345"

/-- An ORU result message whose OBX segment carries the unrecognized
abnormal flag `X`. -/
def oruMsgX : Str :=
  str "MSH|^~\\&|SND|SFAC|RCV|RFAC|20250101||ORU^R01|CTRL2|P|2.5.1\rPID|1||777\rOBX|1|NM|2345-7^Glucose^LN||95|mg/dL|70-100|X|||F"

/-- A concrete conversion environment: fixed uuid stream, `float()` and
`strptime()` always succeed. -/
def convEnvEx : HL7.ConvEnv where
  fresh := fun _ => str "uuid-0"
  floatOk := fun _ => true
  strptimeOk := fun _ _ => true

/-- A concrete HMAC oracle for the C4 witness: distinct 64-character hex
digests for the two secrets. -/
def hmacHexEx : Str → Str → Str := fun s _ =>
  if s = str "k1" then
    str "aaaaaaaaaaaaaaaaaaaaaaaaaaaaaaaaaaaaaaaaaaaaaaaaaaaaaaaaaaaaaaaa"
  else
    str "bbbbbbbbbbbbbbbbbbbbbbbbbbbbbbbbbbbbbbbbbbbbbbbbbbbbbbbbbbbbbbbb"

/-- A routing table whose only handler raises `ValueError` on every
invocation (exceptions modelled as `Except.error 0`). -/
def alwaysFailRoutes : List (Str × (Webhook.WebhookEvent → Except Nat Nat)) :=
  [(str "x", fun _ => Except.error 0)]

/-- A concrete Python error renderer `f"{type(e).__name__}: {str(e)}"`. -/
def renderErrEx : Nat → Str := fun _ => str "ValueError: boom"

/-- A Pub/Sub environment with a configured publisher whose publish call
succeeds. -/
def pubsubOk : Webhook.PubSubEnv := { configured := true, publish_ok := true }

/-- A Pub/Sub environment with no publisher configured. -/
def pubsubOff : Webhook.PubSubEnv := { configured := false, publish_ok := true }

/-- The default adapter identity configuration (`__init__` defaults). -/
def ackCfgEx : HL7.AdapterCfg := {}

end IHEP

namespace IHEP.Webhook

/-!
## Theorems: webhook handler
-/

theorem isPrefixOf_self_append (l t : Str) : l.isPrefixOf (l ++ t) = true := by
  rw [List.isPrefixOf_iff_prefix]
  exact List.prefix_append l t

theorem hex_no_prefix (d : Str) (hhex : ∀ c ∈ d, c ∈ str "0123456789abcdef")
    (c : Char) (hc : c ∉ str "0123456789abcdef") (p : Str) :
    (c :: p).isPrefixOf d = false := by
  cases d with
  | nil => rfl
  | cons a as =>
      have ha : a ∈ str "0123456789abcdef" := hhex a (List.mem_cons_self a as)
      have hne : c ≠ a := fun h => hc (h ▸ ha)
      simp [List.isPrefixOf, hne]

theorem IsHexDigest.ne_nil {d : Str} (h : IsHexDigest d) : d ≠ [] := by
  intro hnil
  have := h.1
  rw [hnil] at this
  exact absurd this (by decide)

/-- A hex digest never starts with `sha256=` ('s' is not a hex digit). -/
theorem IsHexDigest.no_sha_lower {d : Str} (h : IsHexDigest d) :
    (str "sha256=").isPrefixOf d = false :=
  hex_no_prefix d h.2 's' (by decide) (str "ha256=")

/-- A hex digest never starts with `SHA256=` ('S' is not a hex digit). -/
theorem IsHexDigest.no_sha_upper {d : Str} (h : IsHexDigest d) :
    (str "SHA256=").isPrefixOf d = false :=
  hex_no_prefix d h.2 'S' (by decide) (str "HA256=")

/-- C4: HMAC signature verification behaves as specified: a correctly
computed signature verifies (raw or `sha256=`-prefixed); a signature
computed under a secret whose HMAC of the body differs is rejected; an
empty signature is rejected when a (non-empty) secret is configured; and
an empty configured secret makes every signature verify. -/
theorem c4_verify_signature_correct (hmacHex : Str → Str → Str) (body secret secret2 : Str)
    (hsec : secret ≠ []) (hsec2 : secret2 ≠ [])
    (hhex : IsHexDigest (hmacHex secret body))
    (hdiff : hmacHex secret2 body ≠ hmacHex secret body) :
    verify_signature hmacHex body (hmacHex secret body) secret = true ∧
    verify_signature hmacHex body (str "sha256=" ++ hmacHex secret body) secret = true ∧
    verify_signature hmacHex body (hmacHex secret body) secret2 = false ∧
    verify_signature hmacHex body [] secret = false ∧
    (∀ signature, verify_signature hmacHex body signature [] = true) := by
  have hd := hhex.ne_nil
  refine ⟨?_, ?_, ?_, ?_, ?_⟩
  · simp [verify_signature, hsec, hd, hhex.no_sha_lower, hhex.no_sha_upper]
  · have hne : str "sha256=" ++ hmacHex secret body ≠ [] := by
      simp [str]
    have hpre : (str "sha256=").isPrefixOf (str "sha256=" ++ hmacHex secret body) = true :=
      isPrefixOf_self_append _ _
    have hdrop : (str "sha256=" ++ hmacHex secret body).drop 7 = hmacHex secret body := by
      have h7 : (str "sha256=").length = 7 := rfl
      rw [← h7, List.drop_left]
    simp [verify_signature, hsec, hne, hpre, hdrop]
  · simp [verify_signature, hsec2, hd, hhex.no_sha_lower, hhex.no_sha_upper, hdiff]
  · simp [verify_signature, hsec]
  · intro signature
    simp [verify_signature]

/-- Witness for C4 at a concrete oracle, body and secrets. -/
theorem c4_verify_signature_correct_witness :
    verify_signature hmacHexEx (str "body") (hmacHexEx (str "k1") (str "body")) (str "k1") = true ∧
    verify_signature hmacHexEx (str "body")
      (str "sha256=" ++ hmacHexEx (str "k1") (str "body")) (str "k1") = true ∧
    verify_signature hmacHexEx (str "body") (hmacHexEx (str "k1") (str "body")) (str "k2") = false ∧
    verify_signature hmacHexEx (str "body") [] (str "k1") = false ∧
    (∀ signature, verify_signature hmacHexEx (str "body") signature [] = true) :=
  c4_verify_signature_correct hmacHexEx (str "body") (str "k1") (str "k2")
    (by decide) (by decide) (by constructor <;> decide) (by decide)

theorem findPrefixMatch_eq_find (l : Str) (routes : List (Str × α)) :
    findPrefixMatch l routes =
      (routes.find? fun pr => (lowerStr pr.1).isPrefixOf l).map Prod.snd := by
  induction routes with
  | nil => rfl
  | cons p rest ih =>
      obtain ⟨k, h⟩ := p
      by_cases hp : (lowerStr k).isPrefixOf l = true
      · simp [findPrefixMatch, List.find?_cons, hp]
      · simp only [Bool.not_eq_true] at hp
        simp [findPrefixMatch, List.find?_cons, hp, ih]

/-- C5 (amended): handler selection is exact match, then the *first*
registered prefix match in registration (dict insertion) order — not the
longest — then the base type before the first `.`; and it returns no
handler exactly when all three steps fail. -/
theorem c5_routing_firstmatch_amended (routes : List (Str × α)) (event_type : Str) :
    get_route_handler routes event_type = get_route_handler_firstmatch_spec routes event_type ∧
    (get_route_handler routes event_type = none ↔
      dlookup event_type routes = none ∧
      (routes.find? fun pr => (lowerStr pr.1).isPrefixOf (lowerStr event_type)) = none ∧
      dlookup (baseType event_type) routes = none) := by
  have hfind := findPrefixMatch_eq_find (lowerStr event_type) routes
  constructor
  · unfold get_route_handler get_route_handler_firstmatch_spec
    cases dlookup event_type routes with
    | some h => rfl
    | none =>
        rw [hfind]
        cases routes.find? fun pr => (lowerStr pr.1).isPrefixOf (lowerStr event_type) with
        | some pr => rfl
        | none => rfl
  · unfold get_route_handler
    cases hx : dlookup event_type routes with
    | some h =>
        exact iff_of_false (fun hc => Option.noConfusion hc) (fun hc => Option.noConfusion hc.1)
    | none =>
        rw [hfind]
        cases hf : routes.find? fun pr => (lowerStr pr.1).isPrefixOf (lowerStr event_type) with
        | some pr =>
            exact iff_of_false (fun hc => Option.noConfusion hc)
              (fun hc => Option.noConfusion hc.2.1)
        | none =>
            constructor
            · intro h
              exact ⟨rfl, rfl, h⟩
            · intro h
              exact h.2.2

/-- C5 (counterexample): with prefixes `p` and `patient` both registered
(in that order) and event type `patient.update`, the code returns the
handler of the *first* matching prefix `p`, while the spec's
longest-prefix selection returns the handler of `patient`. -/
theorem c5_first_match_beats_longest :
    get_route_handler [(str "p", 1), (str "patient", 2)] (str "patient.update") = some 1 ∧
    get_route_handler_longest_spec [(str "p", 1), (str "patient", 2)]
      (str "patient.update") = some 2 ∧
    get_route_handler [(str "p", 1), (str "patient", 2)] (str "patient.update") ≠
      get_route_handler_longest_spec [(str "p", 1), (str "patient", 2)]
        (str "patient.update") := by
  refine ⟨by decide, by decide, by decide⟩

theorem routeRun_status_terminal (max_retries : Nat) (delay mult : ℚ) (renderErr : E → Str)
    (handlerOpt : Option (WebhookEvent → Except E H)) (event : WebhookEvent) :
    (routeRun max_retries delay mult renderErr handlerOpt event).1.status = str "completed" ∨
    (routeRun max_retries delay mult renderErr handlerOpt event).1.status = str "failed" ∨
    (routeRun max_retries delay mult renderErr handlerOpt event).1.status = str "unhandled" := by
  cases handlerOpt with
  | none => right; right; rfl
  | some handler =>
      simp only [routeRun]
      rcases hx : execute_with_retry max_retries delay mult handler
          { event with status := str "processing" } with ⟨res, ev, sleeps⟩
      cases res with
      | ok r => left; rfl
      | error e => right; left; rfl

theorem process_event_unfold (routes : List (Str × (WebhookEvent → Except E H)))
    (max_retries : Nat) (delay mult : ℚ) (renderErr : E → Str) (env : PubSubEnv)
    (event_id received_at source event_type payload raw_body : Str) :
    process_event routes max_retries delay mult renderErr env event_id received_at
        source event_type payload raw_body =
      (let t := routeRun max_retries delay mult renderErr (get_route_handler routes event_type)
          (WebhookEvent.mk0 event_id source event_type payload raw_body received_at)
       ({ event_id := t.1.event_id
          status := t.1.status
          event_type := event_type
          handler_result := t.2.1
          retry_count := t.1.retry_count
          error := t.1.error },
        { published := publish_to_pubsub env t.1, sleeps := t.2.2 })) := by
  rcases h : routeRun max_retries delay mult renderErr (get_route_handler routes event_type)
      (WebhookEvent.mk0 event_id source event_type payload raw_body received_at) with ⟨ev, hr, sl⟩
  simp only [process_event, h]

theorem process_event_status_eq (routes : List (Str × (WebhookEvent → Except E H)))
    (max_retries : Nat) (delay mult : ℚ) (renderErr : E → Str) (env : PubSubEnv)
    (event_id received_at source event_type payload raw_body : Str) :
    (process_event routes max_retries delay mult renderErr env event_id received_at
        source event_type payload raw_body).1.status =
      (routeRun max_retries delay mult renderErr (get_route_handler routes event_type)
        (WebhookEvent.mk0 event_id source event_type payload raw_body received_at)).1.status := by
  rw [process_event_unfold]

/-- C10: `process_event` is a total function of its inputs (all handler
exceptions are absorbed by the embedding's `Except`), and the status it
reports is always terminal: `completed`, `failed` or `unhandled` — never
the intermediate `pending` or `processing`. -/
theorem c10_process_event_terminal_status (routes : List (Str × (WebhookEvent → Except E H)))
    (max_retries : Nat) (delay mult : ℚ) (renderErr : E → Str) (env : PubSubEnv)
    (event_id received_at source event_type payload raw_body : Str) :
    (process_event routes max_retries delay mult renderErr env event_id received_at
        source event_type payload raw_body).1.status = str "completed" ∨
    (process_event routes max_retries delay mult renderErr env event_id received_at
        source event_type payload raw_body).1.status = str "failed" ∨
    (process_event routes max_retries delay mult renderErr env event_id received_at
        source event_type payload raw_body).1.status = str "unhandled" := by
  have hroute := routeRun_status_terminal max_retries delay mult renderErr
    (get_route_handler routes event_type)
    (WebhookEvent.mk0 event_id source event_type payload raw_body received_at)
  rw [process_event_status_eq]
  exact hroute

theorem update_rc_self (ev : WebhookEvent) :
    ({ ev with retry_count := ev.retry_count } : WebhookEvent) = ev := by
  cases ev
  rfl

theorem update_rc_update_rc (ev : WebhookEvent) (x y : Nat) :
    ({ { ev with retry_count := x } with retry_count := y } : WebhookEvent) =
      { ev with retry_count := y } := by
  cases ev
  rfl

theorem geomTrace (delay mult : ℚ) (n : Nat) :
    (List.range (n + 1)).map (fun i => delay * mult ^ i) =
      delay :: (List.range n).map (fun i => delay * mult * mult ^ i) := by
  rw [List.range_succ_eq_map, List.map_cons, List.map_map]
  have hf : ((fun i => delay * mult ^ i) ∘ Nat.succ) = fun i => delay * mult * mult ^ i := by
    funext i
    simp only [Function.comp]
    rw [pow_succ]
    ring
  rw [hf]
  simp

/-- Closed form of the retry loop against a handler that fails on every
invocation: all `remaining + 1` attempts fail, `retry_count` ends at
`attempt + remaining + 1`, the last attempt's error is re-raised, and one
sleep per non-final attempt is taken with multiplicatively growing
delays. -/
theorem retryGo_const_fail (handler : WebhookEvent → Except E H) (errf : WebhookEvent → E)
    (hfail : ∀ ev, handler ev = .error (errf ev)) (mult : ℚ) (remaining : Nat) :
    ∀ (delay : ℚ) (ev : WebhookEvent) (attempt : Nat), ev.retry_count = attempt →
      retryGo handler delay mult ev attempt remaining =
        (.error (errf { ev with retry_count := attempt + remaining }),
         { ev with retry_count := attempt + remaining + 1 },
         (List.range remaining).map fun i => delay * mult ^ i) := by
  induction remaining with
  | zero =>
      intro delay ev attempt h
      have he : ({ ev with retry_count := attempt } : WebhookEvent) = ev := by
        rw [← h]
      simp only [retryGo, hfail ev, Nat.add_zero, he, List.range_zero, List.map_nil]
  | succ n ih =>
      intro delay ev attempt h
      have hrec := ih (delay * mult) { ev with retry_count := attempt + 1 } (attempt + 1) rfl
      rw [update_rc_update_rc, update_rc_update_rc] at hrec
      simp only [retryGo, hfail ev, hrec, geomTrace]
      rw [show attempt + (n + 1) = attempt + 1 + n from by omega]

/-- Closed form of `_execute_with_retry` against an always-failing
handler started on a fresh event. -/
theorem execute_with_retry_const_fail (handler : WebhookEvent → Except E H)
    (errf : WebhookEvent → E) (hfail : ∀ ev, handler ev = .error (errf ev))
    (max_retries : Nat) (delay mult : ℚ) (ev : WebhookEvent) (h0 : ev.retry_count = 0) :
    execute_with_retry max_retries delay mult handler ev =
      (.error (errf { ev with retry_count := max_retries }),
       { ev with retry_count := max_retries + 1 },
       (List.range max_retries).map fun i => delay * mult ^ i) := by
  unfold execute_with_retry
  rw [retryGo_const_fail handler errf hfail mult max_retries delay ev 0 h0]
  simp only [Nat.zero_add]

/-- C2 (amended): for a handler that raises on every invocation,
processing performs the first attempt plus `max_retries` additional
retries with multiplicative backoff (the sleep trace is
`delay * mult ^ i` for `i < max_retries`), the retrier re-raises the
error of the final attempt to the processing loop, and the returned
result has status `failed` with `retry_count = max_retries + 1` — the
total number of attempts, one more than the configured `max_retries`. -/
theorem c2_retry_exhaustion_amended (routes : List (Str × (WebhookEvent → Except E H)))
    (max_retries : Nat) (delay mult : ℚ) (renderErr : E → Str) (env : PubSubEnv)
    (event_id received_at source event_type payload raw_body : Str)
    (handler : WebhookEvent → Except E H) (errf : WebhookEvent → E)
    (hroute : get_route_handler routes event_type = some handler)
    (hfail : ∀ ev, handler ev = .error (errf ev)) :
    (process_event routes max_retries delay mult renderErr env event_id received_at
        source event_type payload raw_body).1.status = str "failed" ∧
    (process_event routes max_retries delay mult renderErr env event_id received_at
        source event_type payload raw_body).1.retry_count = max_retries + 1 ∧
    (process_event routes max_retries delay mult renderErr env event_id received_at
        source event_type payload raw_body).1.error =
      some (renderErr (errf
        { WebhookEvent.mk0 event_id source event_type payload raw_body received_at with
            status := str "processing", retry_count := max_retries })) ∧
    (process_event routes max_retries delay mult renderErr env event_id received_at
        source event_type payload raw_body).2.sleeps =
      ((List.range max_retries).map fun i => delay * mult ^ i) ∧
    (execute_with_retry max_retries delay mult handler
        { WebhookEvent.mk0 event_id source event_type payload raw_body received_at with
            status := str "processing" }).1 =
      .error (errf
        { WebhookEvent.mk0 event_id source event_type payload raw_body received_at with
            status := str "processing", retry_count := max_retries }) := by
  have hexec := execute_with_retry_const_fail handler errf hfail max_retries delay mult
    { WebhookEvent.mk0 event_id source event_type payload raw_body received_at with
        status := str "processing" } rfl
  have hrr : routeRun max_retries delay mult renderErr (some handler)
      (WebhookEvent.mk0 event_id source event_type payload raw_body received_at) =
      ({ WebhookEvent.mk0 event_id source event_type payload raw_body received_at with
           status := str "failed"
           retry_count := max_retries + 1
           error := some (renderErr (errf
             { WebhookEvent.mk0 event_id source event_type payload raw_body received_at with
                 status := str "processing", retry_count := max_retries })) },
       none,
       (List.range max_retries).map fun i => delay * mult ^ i) := by
    simp only [routeRun]
    rw [hexec]
  refine ⟨?_, ?_, ?_, ?_, ?_⟩
  · rw [process_event_unfold, hroute, hrr]
  · rw [process_event_unfold, hroute, hrr]
  · rw [process_event_unfold, hroute, hrr]
  · rw [process_event_unfold, hroute, hrr]
  · rw [hexec]

/-- C2 (counterexample): with `max_retries = 3` and an always-raising
handler, the returned result has `retry_count = 4` (the total number of
attempts), not `3` as the claim states. -/
theorem c2_retry_count_off_by_one :
    (process_event alwaysFailRoutes 3 5 2 renderErrEx pubsubOff (str "e1") (str "t0")
        (str "src") (str "x") [] []).1.status = str "failed" ∧
    (process_event alwaysFailRoutes 3 5 2 renderErrEx pubsubOff (str "e1") (str "t0")
        (str "src") (str "x") [] []).1.retry_count = 4 ∧
    ¬ (process_event alwaysFailRoutes 3 5 2 renderErrEx pubsubOff (str "e1") (str "t0")
        (str "src") (str "x") [] []).1.retry_count = 3 := by
  refine ⟨by decide, by decide, by decide⟩

/-- Witness for C2 (amended) at the concrete always-failing route table
with `max_retries = 3`. -/
theorem c2_retry_exhaustion_amended_witness :
    (process_event alwaysFailRoutes 3 5 2 renderErrEx pubsubOff (str "e2") (str "t0")
        (str "src") (str "x") [] []).1.status = str "failed" ∧
    (process_event alwaysFailRoutes 3 5 2 renderErrEx pubsubOff (str "e2") (str "t0")
        (str "src") (str "x") [] []).1.retry_count = 3 + 1 ∧
    (process_event alwaysFailRoutes 3 5 2 renderErrEx pubsubOff (str "e2") (str "t0")
        (str "src") (str "x") [] []).1.error = some (renderErrEx 0) ∧
    (process_event alwaysFailRoutes 3 5 2 renderErrEx pubsubOff (str "e2") (str "t0")
        (str "src") (str "x") [] []).2.sleeps =
      ((List.range 3).map fun i => (5 : ℚ) * 2 ^ i) ∧
    (execute_with_retry 3 5 2 (fun _ => Except.error 0 : WebhookEvent → Except Nat Nat)
        { WebhookEvent.mk0 (str "e2") (str "src") (str "x") [] [] (str "t0") with
            status := str "processing" }).1 = Except.error 0 :=
  c2_retry_exhaustion_amended alwaysFailRoutes 3 5 2 renderErrEx pubsubOff
    (str "e2") (str "t0") (str "src") (str "x") [] []
    (fun _ => Except.error 0) (fun _ => 0) rfl (fun _ => rfl)

/-- C6: every processed event — completed, failed or unhandled alike — is
handed to the Pub/Sub publish exactly once (when a publisher is
configured), the published event is the final event whose status matches
the returned result, and the outcome of the publish call has no effect on
the synchronous result returned to the caller. -/
theorem c6_publish_once_result_independent (routes : List (Str × (WebhookEvent → Except E H)))
    (max_retries : Nat) (delay mult : ℚ) (renderErr : E → Str) (env : PubSubEnv)
    (ok₁ ok₂ : Bool)
    (event_id received_at source event_type payload raw_body : Str)
    (hconf : env.configured = true) :
    ((process_event routes max_retries delay mult renderErr env event_id received_at
        source event_type payload raw_body).2.published.map fun p => (p.1.status, p.2)) =
      [((process_event routes max_retries delay mult renderErr env event_id received_at
          source event_type payload raw_body).1.status, env.publish_ok)] ∧
    (process_event routes max_retries delay mult renderErr
        { configured := env.configured, publish_ok := ok₁ } event_id received_at
        source event_type payload raw_body).1 =
      (process_event routes max_retries delay mult renderErr
        { configured := env.configured, publish_ok := ok₂ } event_id received_at
        source event_type payload raw_body).1 := by
  constructor
  · rw [process_event_unfold]
    simp only [publish_to_pubsub, hconf, if_true, List.map_cons, List.map_nil]
  · rw [process_event_unfold, process_event_unfold]

/-- Witness for C6 on the concrete always-failing route table with a
configured publisher. -/
theorem c6_publish_once_result_independent_witness :
    ((process_event alwaysFailRoutes 3 5 2 renderErrEx pubsubOk (str "e3") (str "t0")
        (str "src") (str "x") [] []).2.published.map fun p => (p.1.status, p.2)) =
      [((process_event alwaysFailRoutes 3 5 2 renderErrEx pubsubOk (str "e3") (str "t0")
          (str "src") (str "x") [] []).1.status, pubsubOk.publish_ok)] ∧
    (process_event alwaysFailRoutes 3 5 2 renderErrEx
        { configured := pubsubOk.configured, publish_ok := true } (str "e3") (str "t0")
        (str "src") (str "x") [] []).1 =
      (process_event alwaysFailRoutes 3 5 2 renderErrEx
        { configured := pubsubOk.configured, publish_ok := false } (str "e3") (str "t0")
        (str "src") (str "x") [] []).1 :=
  c6_publish_once_result_independent alwaysFailRoutes 3 5 2 renderErrEx pubsubOk
    true false (str "e3") (str "t0") (str "src") (str "x") [] [] (by decide)

end IHEP.Webhook

namespace IHEP.Sync

open IHEP

/-!
## Theorems: sync engine
-/

/-- C1: demonstration that `sync_partner` has no in-flight guard — called
on a partner whose `SyncState.status` is already `"syncing"`, it does not
reject with a "sync already in progress" result: it runs the sync to
completion (all three default resource types are pulled), reports
success with no error, and overwrites the partner's `SyncState`; the
`BidirectionalSync` orchestrator delegates to the same unguarded
routine. -/
theorem c1_second_sync_not_rejected :
    stSyncing.status = str "syncing" ∧
    (inbound_sync_partner syncEnvEx stSyncing none false).1.success = true ∧
    (inbound_sync_partner syncEnvEx stSyncing none false).1.error = none ∧
    (inbound_sync_partner syncEnvEx stSyncing none false).1.resources_processed = 6 ∧
    (inbound_sync_partner syncEnvEx stSyncing none false).2.last_inbound_sync ≠
      stSyncing.last_inbound_sync ∧
    (bidirectional_sync_partner syncEnvEx stSyncing (str "inbound") none false).1.1 =
      some (inbound_sync_partner syncEnvEx stSyncing none false).1 := by
  refine ⟨rfl, by decide, by decide, by decide, by decide, by decide⟩

/-- C8 (counterexample): an inbound sync with zero configured resource
types raises no partner-level error and succeeds with zero resources
processed — yet the last-inbound-sync timestamp is still updated (from
`none` to the current time), contradicting the claim that it is left
unchanged when no resource type succeeded. -/
theorem c8_noop_still_updates_timestamp :
    stIdle.last_inbound_sync = none ∧
    (inbound_sync_partner syncEnvEx stIdle (some []) false).1.success = true ∧
    (inbound_sync_partner syncEnvEx stIdle (some []) false).1.resources_processed = 0 ∧
    (inbound_sync_partner syncEnvEx stIdle (some []) false).2.last_inbound_sync =
      some (str "2025-06-01T00:00:00") ∧
    (inbound_sync_partner syncEnvEx stIdle (some []) false).2.last_inbound_sync ≠
      stIdle.last_inbound_sync := by
  refine ⟨rfl, by decide, by decide, by decide, by decide⟩

/-- C8 (amended): at the end of an inbound sync attempt that raises no
partner-level error (partner found, adapter found, authentication
succeeded), the last-inbound-sync timestamp is *unconditionally* updated
to the current time — also when zero resource types were configured or
every configured resource type failed — while the inbound cursor field is
never modified; the attempt is reported as a success, not an error. -/
theorem c8_timestamp_always_cursor_never (env : SyncEnv) (state : SyncState)
    (resource_types : Option (List Str)) (force_full : Bool)
    (adapter : Adapter) (pc : PartnerConfig)
    (h : preChecks env state.partner_id = .ok (adapter, pc)) :
    (inbound_sync_partner env state resource_types force_full).2.last_inbound_sync =
      some env.now_iso ∧
    (inbound_sync_partner env state resource_types force_full).2.last_inbound_cursor =
      state.last_inbound_cursor ∧
    (inbound_sync_partner env state resource_types force_full).1.success = true ∧
    (inbound_sync_partner env state resource_types force_full).1.error = none := by
  simp only [inbound_sync_partner]
  rw [h]
  refine ⟨rfl, rfl, rfl, rfl⟩

/-- Witness for C8 (amended) at the concrete environment with zero
configured resource types. -/
theorem c8_timestamp_always_cursor_never_witness :
    (inbound_sync_partner syncEnvEx stIdle (some []) false).2.last_inbound_sync =
      some syncEnvEx.now_iso ∧
    (inbound_sync_partner syncEnvEx stIdle (some []) false).2.last_inbound_cursor =
      stIdle.last_inbound_cursor ∧
    (inbound_sync_partner syncEnvEx stIdle (some []) false).1.success = true ∧
    (inbound_sync_partner syncEnvEx stIdle (some []) false).1.error = none :=
  c8_timestamp_always_cursor_never syncEnvEx stIdle (some []) false
    ⟨true, fun _ _ => Except.ok 2⟩ ⟨str "epic", true, true, true, false⟩ rfl

/-- C9 (counterexample): the conflict resolver is not side-effect-free
and not deterministic across runs: under `newest_wins` the winning input
dict is mutated in place (it gains a `_conflict_resolution` key), and two
runs on equal inputs at different wall-clock times return different
outputs (they embed the ambient `resolved_at` timestamp). -/
theorem c9_resolver_impure :
    (resolve (str "newest_wins") (str "T1") resLocal resRemote (str "Observation")).2.1 ≠
      resLocal ∧
    (resolve (str "newest_wins") (str "T1") resLocal resRemote (str "Observation")).1 ≠
      (resolve (str "newest_wins") (str "T2") resLocal resRemote (str "Observation")).1 := by
  constructor
  · intro hc
    exact absurd (congrArg hasConflictMeta hc) (by decide)
  · intro hc
    exact absurd (congrArg resolvedAtOf hc) (by decide)

/-- C9 (amended): for fixed inputs, strategy and clock value, resolve is
a pure function (hence deterministic); under `newest_wins` it returns the
operand whose `meta.last_updated` timestamp is later — ties in favor of
the local (ihep) operand, exactly `newest_wins_spec` — with
`_conflict_resolution` metadata attached; the attachment mutates the
winning operand in place (the returned value aliases it) while the
losing operand is left unchanged. -/
theorem c9_newest_wins_amended (now : Str) (a b : Resource) (rt : Str) :
    (resolve (str "newest_wins") now a b rt).1 =
      dictSet (str "_conflict_resolution")
        (conflictMeta (str "newest_wins") (newest_wins_spec a b).2 now)
        (newest_wins_spec a b).1 ∧
    (resolve (str "newest_wins") now a b rt).2 =
      (if strLt (metaLastUpdated a) (metaLastUpdated b) then
        (a, (resolve (str "newest_wins") now a b rt).1)
       else ((resolve (str "newest_wins") now a b rt).1, b)) := by
  unfold resolve newest_wins_spec
  rw [if_neg (by decide : ¬ str "newest_wins" = str "ehr_wins"),
      if_neg (by decide : ¬ str "newest_wins" = str "ihep_wins"),
      if_pos (rfl : str "newest_wins" = str "newest_wins")]
  cases hlt : strLt (metaLastUpdated a) (metaLastUpdated b) with
  | false => simp [hlt]
  | true => simp [hlt]

end IHEP.Sync

namespace IHEP.HL7

open IHEP

/-!
## Theorems: HL7 v2.x adapter
-/

/-- C3: the generated acknowledgement wire string does carry `m`'s
control id `CTRL1` in field 2 of its MSA segment, but
`parse_hl7_message` has no branch for the `MSA` tag — parsing the
generated ACK yields a record with *no* MSA entry at all, so the
round-trip produces no acknowledgement record whose in-reply-to control
id could equal `m`'s control id. -/
theorem c3_ack_roundtrip_drops_msa :
    (parse_hl7_message adtMsg).message_control_id = str "CTRL1" ∧
    dlookup (str "MSA")
      (parse_hl7_message (generate_ack ackCfgEx (str "20250102030405") (str "ACK1")
        (parse_hl7_message adtMsg) (str "AA") [])).segments = none ∧
    splitOnChar '|'
      ((splitOnChar '\r' (generate_ack ackCfgEx (str "20250102030405") (str "ACK1")
        (parse_hl7_message adtMsg) (str "AA") [])).getD 1 []) =
      [str "MSA", str "AA", str "CTRL1", []] := by
  refine ⟨by decide, by decide, by decide⟩

theorem convertObxList_get (env : ConvEnv) (patient_id : Str) :
    ∀ (l : List (List (Str × Str))) (i0 i : Nat),
      (convertObxList env patient_id i0 l).get? i =
        (l.get? i).map fun obx => convert_obx env (env.fresh (i0 + i)) patient_id obx := by
  intro l
  induction l with
  | nil =>
      intro i0 i
      simp [convertObxList]
  | cons hd tl ih =>
      intro i0 i
      cases i with
      | zero => simp [convertObxList]
      | succ j =>
          simp only [convertObxList, List.get?_cons_succ]
          rw [ih (i0 + 1) j, show i0 + 1 + j = i0 + (j + 1) from by omega]

/-- C7 (amended): for every parsed message and OBX segment whose
abnormal-flags field is non-empty and not one of the six fixed lookup
keys, the converted Observation's interpretation carries the *raw flag
itself* as both code and display (`flag_map.get(flag, flag)` falls back
to the flag, not to a generic "abnormal" value), and the conversion is
total — it never raises on an unrecognized flag. -/
theorem c7_unknown_flag_amended (env : ConvEnv) (pm : ParsedMessage) (i : Nat)
    (obx : List (Str × Str)) (hobx : (obxListOf pm).get? i = some obx)
    (hne : dget obx (str "abnormal_flags") ≠ [])
    (hnk : dget obx (str "abnormal_flags") ∉
      [str "H", str "L", str "A", str "HH", str "LL", str "N"]) :
    ∃ o, (hl7_to_fhir_observations env pm).get? i = some o ∧
      o.interpretation =
        some { system :=
                 str "http://terminology.hl7.org/CodeSystem/v3-ObservationInterpretation",
               code := dget obx (str "abnormal_flags"),
               display := dget obx (str "abnormal_flags") } := by
  simp only [List.mem_cons, List.not_mem_nil, or_false] at hnk
  push_neg at hnk
  obtain ⟨h1, h2, h3, h4, h5, h6⟩ := hnk
  unfold hl7_to_fhir_observations
  rw [convertObxList_get env (pidPatientId (pidOf pm)) (obxListOf pm) 0 i, hobx]
  refine ⟨convert_obx env (env.fresh (0 + i)) (pidPatientId (pidOf pm)) obx, rfl, ?_⟩
  simp only [convert_obx]
  rw [if_pos hne]
  simp only [flag_map_get, if_neg h1, if_neg h2, if_neg h3, if_neg h4, if_neg h5, if_neg h6]

/-- Witness for C7 (amended) on the concrete ORU message whose OBX
carries the unrecognized abnormal flag `X`. -/
theorem c7_unknown_flag_amended_witness :
    ∃ o, (hl7_to_fhir_observations convEnvEx (parse_hl7_message oruMsgX)).get? 0 = some o ∧
      o.interpretation =
        some { system :=
                 str "http://terminology.hl7.org/CodeSystem/v3-ObservationInterpretation",
               code := str "X",
               display := str "X" } :=
  c7_unknown_flag_amended convEnvEx (parse_hl7_message oruMsgX) 0
    ((obxListOf (parse_hl7_message oruMsgX)).getD 0 []) rfl (by decide) (by decide)

/-- C7 (counterexample): the unrecognized abnormal flag `X` is passed
through as the interpretation display, which is `"X"` — not the generic
`"abnormal"` severity the claim specifies. -/
theorem c7_unknown_flag_not_abnormal :
    ((hl7_to_fhir_observations convEnvEx (parse_hl7_message oruMsgX)).map
        fun o => o.interpretation) =
      [some { system :=
                str "http://terminology.hl7.org/CodeSystem/v3-ObservationInterpretation",
              code := str "X",
              display := str "X" }] ∧
    str "X" ≠ str "abnormal" := by
  refine ⟨by decide, by decide⟩

end IHEP.HL7
